import Mathlib

/-!
Verification development for the `utils_seleniumxp` repository.

The development shallowly embeds the two algorithmic components of the
repository:

* the event-firing wrapper of `eventfiring_addon.py`
  (`_wrap_elements`, `_dispatch`, `_getattr`, `_getattr_dispatch_generic`);
* the popup-closing queue of `webdriver_addon.py`
  (`closepopup_queueadd`, `closepopup_queueprocessing`) and the shadow-DOM
  single-element lookup (`find_element_shadowdom`).

Calls into the wrapped selenium library (page parsing, element queries,
clicking) are external effects; they are embedded as explicit inputs: the
number of frames and shadow hosts a locator resolves to, the list of matched
elements together with each element's `is_displayed` answer and the outcome of
clicking it.  Events observable by the caller or the listener (hook
invocations, log records, dequeue operations, raised exceptions) are recorded
in explicit traces, and raised exceptions are modelled with `Except`.
-/

namespace UtilsSeleniumXP

/-! ## Data model: locators and exceptions -/

/-- Locator kind, mirroring the `selenium.webdriver.common.by.By` string
constants used by the repository (`By.XPATH`, `By.CSS_SELECTOR`, others). -/
inductive By where
  | xpath
  | css_selector
  | other_by (s : String)
  deriving DecidableEq, Repr

/-- `SeleniumLocator` of `locatorutils.py`: a named pair of locator kind and
selector string.  The Python field `by` is a Lean keyword, hence `by_`. -/
structure SeleniumLocator where
  by_ : By
  value : String
  deriving DecidableEq, Repr

/-- Exceptions raised by the repository or by the wrapped selenium library.
`errorUtilsSelenium` is the repository's own `ErrorUtilsSelenium`;
`webdriverError` stands for an arbitrary exception coming out of a wrapped
library call (a numeric code distinguishes distinct exception objects). -/
inductive Exc where
  | errorUtilsSelenium (msg : String)
  | webdriverError (code : Nat)
  deriving DecidableEq, Repr

/-! ## Event-firing wrapper (`eventfiring_addon.py`) -/

/-- Python values flowing through the event-firing dispatcher: the wrapper
classes `EventFiringWebElementExtended`, `EventFiringSwitchTo`,
`EventFiringAlert` (each holding the wrapped value and the id of the
`ef_driver` passed at construction), the raw selenium classes `_WebElement`,
`_SwitchTo`, `_Alert` (identified by a numeric id), Python lists, and values
of built-in types. -/
inductive PyVal where
  | efWebElementExtended (inner : PyVal) (ef_driver : Nat)
  | efSwitchTo (inner : PyVal) (ef_driver : Nat)
  | efAlert (inner : PyVal) (ef_driver : Nat)
  | webElement (id : Nat)
  | switchTo (id : Nat)
  | alert (id : Nat)
  | list (items : List PyVal)
  | builtin (v : Nat)

mutual

/-- `_wrap_elements` of `eventfiring_addon.py`: the result wrapper.  The
`isinstance` chain of the source is transcribed branch for branch: an already
wrapped value is returned unchanged; a raw element / switch-to / alert is
wrapped into the corresponding event-firing class; a list is wrapped
element-wise; anything else (a built-in type) is returned as-is. -/
def _wrap_elements (result : PyVal) (ef_driver : Nat) : PyVal :=
  match result with
  | PyVal.efWebElementExtended x d => PyVal.efWebElementExtended x d
  | PyVal.efSwitchTo x d => PyVal.efSwitchTo x d
  | PyVal.efAlert x d => PyVal.efAlert x d
  | PyVal.webElement i => PyVal.efWebElementExtended (PyVal.webElement i) ef_driver
  | PyVal.switchTo i => PyVal.efSwitchTo (PyVal.switchTo i) ef_driver
  | PyVal.alert i => PyVal.efAlert (PyVal.alert i) ef_driver
  | PyVal.list items => PyVal.list (_wrap_elements_listcomp items ef_driver)
  | PyVal.builtin v => PyVal.builtin v

/-- The list comprehension `[_wrap_elements(item, ef_driver) for item in result]`
inside `_wrap_elements`. -/
def _wrap_elements_listcomp (items : List PyVal) (ef_driver : Nat) : List PyVal :=
  match items with
  | [] => []
  | item :: rest => _wrap_elements item ef_driver :: _wrap_elements_listcomp rest ef_driver

end

/-- Phase tag of a generic-listener record: the `before_` / `after_` half of
the event-name string `f"before_{d_call}"` / `f"after_{d_call}"` passed to
`generic_listener`. -/
inductive HookPhase where
  | before
  | after
  deriving DecidableEq, Repr

/-- Events observable around one intercepted call: the listener's
`before_<name>` hook, the call into the real underlying method, the listener's
`after_<name>` hook, the listener's generic handler (`generic_listener`,
receiving the phase and the method name that the source concatenates into one
string), and the listener's `on_exception` notification. -/
inductive Event where
  | beforeHook (name : String)
  | callUnderlying (name : String)
  | afterHook (name : String)
  | genericHook (phase : HookPhase) (name : String)
  | onException
  deriving DecidableEq, Repr

/-- Number of `on_exception` notifications in a trace. -/
def countOnException : List Event → Nat
  | [] => 0
  | Event.onException :: rest => countOnException rest + 1
  | _ :: rest => countOnException rest

/-- Whether a trace contains an `after_<name>` hook invocation. -/
def hasAfterHook : List Event → Bool
  | [] => false
  | Event.afterHook _ :: _ => true
  | _ :: rest => hasAfterHook rest

/-- Whether a trace contains an `after_…` generic-handler record. -/
def hasGenericAfterHook : List Event → Bool
  | [] => false
  | Event.genericHook HookPhase.after _ :: _ => true
  | _ :: rest => hasGenericAfterHook rest

/-- Python truthiness of the `Optional[str]` argument `l_call`, as tested by
`if l_call:` — `None` and the empty string are falsy. -/
def pyTruthy : Option String → Bool
  | none => false
  | some s => !(s == "")

/-- The test `l_call is not None and l_call != ""` guarding the after-hook. -/
def lcallGiven (l_call : Option String) : Bool :=
  l_call.isSome && !(l_call == some "")

/-- `_dispatch` of `eventfiring_addon.py`.  The call into the real underlying
method is an external effect and is supplied as `callResult` (`Except.error e`
when the real method raises `e`).  Returned: the trace of listener/underlying
events in execution order, and the dispatched result — the wrapped return
value on success, the propagated exception otherwise.

Source shape: `if l_call:` fire `before_{l_call}`; `try` the underlying call,
on exception notify `on_exception` and re-raise; then, `if l_call is not None
and l_call != ""`, fire `after_{l_call}`; finally `_wrap_elements` the
result. -/
def _dispatch (ef_driver : Nat) (l_call : Option String) (d_call : String)
    (callResult : Except Exc PyVal) : List Event × Except Exc PyVal :=
  let pre : List Event :=
    if pyTruthy l_call then [Event.beforeHook (l_call.getD "")] else []
  match callResult with
  | Except.error e =>
      (pre ++ [Event.callUnderlying d_call, Event.onException], Except.error e)
  | Except.ok result =>
      let post : List Event :=
        if lcallGiven l_call then [Event.afterHook (l_call.getD "")] else []
      (pre ++ [Event.callUnderlying d_call] ++ post,
       Except.ok (_wrap_elements result ef_driver))

/-- The inner `_wrap` closure of `_getattr` in `eventfiring_addon.py`: call the
attribute, wrap the result, on exception notify `on_exception` and
re-raise. -/
def _getattr_wrap (ef_driver : Nat) (name : String)
    (callResult : Except Exc PyVal) : List Event × Except Exc PyVal :=
  match callResult with
  | Except.ok result =>
      ([Event.callUnderlying name], Except.ok (_wrap_elements result ef_driver))
  | Except.error e =>
      ([Event.callUnderlying name, Event.onException], Except.error e)

/-- The inner `_wrap` closure of `_getattr_dispatch_generic` in
`eventfiring_addon.py`: fire `before_{l_call}` when `l_call` is given,
otherwise the generic handler with event name `before_{d_call}`; call the
attribute (on exception notify `on_exception` and re-raise); fire the
corresponding after hook; wrap the result. -/
def _getattr_dispatch_generic (ef_driver : Nat) (l_call : Option String)
    (d_call : String) (callResult : Except Exc PyVal) :
    List Event × Except Exc PyVal :=
  let pre : List Event :=
    if lcallGiven l_call then [Event.beforeHook (l_call.getD "")]
    else [Event.genericHook HookPhase.before d_call]
  match callResult with
  | Except.error e =>
      (pre ++ [Event.callUnderlying d_call, Event.onException], Except.error e)
  | Except.ok result =>
      let post : List Event :=
        if lcallGiven l_call then [Event.afterHook (l_call.getD "")]
        else [Event.genericHook HookPhase.after d_call]
      (pre ++ [Event.callUnderlying d_call] ++ post,
       Except.ok (_wrap_elements result ef_driver))

/-! ## Shadow-DOM single-element lookup (`webdriver_addon.py`) -/

/-- `find_element_shadowdom` of `webdriver_addon.py`.  The underlying browser
query `find_elements_shadowdom(webdriver, locator_list, shadowroot)` is an
external effect and its result is supplied as the argument `webelts`
(`none` models Python `None`, returned by `find_elements_shadowdom` when the
injected JavaScript fails).  Source shape: `if webelts is not None and webelts
!= []:` then return `webelts[0]` when `len(webelts) == 1`, else raise
`ErrorUtilsSelenium("Multiple elements for descriptor in shadow DOM")`;
otherwise return `None`. -/
def find_element_shadowdom {α : Type} (webelts : Option (List α)) :
    Except Exc (Option α) :=
  match webelts with
  | some (w :: ws) =>
      if (w :: ws).length = 1 then Except.ok (some w)
      else Except.error
        (Exc.errorUtilsSelenium "Multiple elements for descriptor in shadow DOM")
  | some [] => Except.ok none
  | none => Except.ok none

/-! ## Popup-closing queue (`webdriver_addon.py`) -/

/-- One entry of the `closepopup_queue`, the dict built by
`closepopup_queueadd`.  Wait durations are kept as naturals; they only feed
`time.sleep` / `WebDriverWait` and have no further observable effect. -/
structure QueueEntry where
  locator_click : SeleniumLocator
  wait_click : Nat
  check_click : Bool
  locator_iframe : Option SeleniumLocator
  wait_iframe : Nat
  locator_shadowdomhost : Option SeleniumLocator
  deriving DecidableEq, Repr

/-- Outcome of `webelt.click()` (together with the `is_displayed()` probe
inside the same `try`): success, a raised
`StaleElementReferenceException`, or any other raised exception. -/
inductive ClickOutcome where
  | success
  | stale
  | failure (e : Exc)
  deriving DecidableEq, Repr

/-- One element matched by `locator_click`: its `is_displayed()` answer and
what clicking it does. -/
structure Elem where
  displayed : Bool
  click : ClickOutcome
  deriving DecidableEq, Repr

/-- The external world's answers for the processing of one queue entry: how
many frames `locator_iframe` resolves to, how many hosts
`locator_shadowdomhost` resolves to, the elements matched by `locator_click`
in the resolved context, and the elements matched by the re-query performed
for `check_click` after a successful click. -/
structure EntryEnv where
  frames : Nat
  shadowhosts : Nat
  webelts : List Elem
  recheck : List Elem
  deriving DecidableEq, Repr

/-- Observable events of one `closepopup_queueprocessing` run: the
`popleft` of an entry, and the log records written through
`closepopup_logger` (`FRAME not found`, `FRAME not unique`, `ShadowDOM host
not found`, `ShadowDOM host not unique`, `found target`, `not found`,
`not checked`). -/
inductive ProcEvent where
  | dequeued (q : QueueEntry)
  | logFrameNotFound (q : QueueEntry)
  | logFrameNotUnique (q : QueueEntry)
  | logShadowHostNotFound (q : QueueEntry)
  | logShadowHostNotUnique (q : QueueEntry)
  | logFoundTarget (q : QueueEntry)
  | logNotFound (q : QueueEntry)
  | logNotChecked (q : QueueEntry)
  deriving DecidableEq, Repr

/-- Result of the `for webelt in webelts:` click loop: no displayed element
was clicked, some element was clicked (loop `break`), or a non-stale
exception was raised. -/
inductive TryClickRes where
  | noneClicked
  | clicked
  | raised (e : Exc)
  deriving DecidableEq, Repr

/-- The `for webelt in webelts:` loop of `closepopup_queueprocessing`: skip
elements that are not displayed; on a displayed element, click — on success
set the flags and `break`; a `StaleElementReferenceException` is passed over
(`pass  # simple rerun`) and the loop continues with the next element; any
other exception is re-raised. -/
def tryClickLoop : List Elem → TryClickRes
  | [] => TryClickRes.noneClicked
  | el :: rest =>
      if el.displayed then
        match el.click with
        | ClickOutcome.success => TryClickRes.clicked
        | ClickOutcome.stale => tryClickLoop rest
        | ClickOutcome.failure e => TryClickRes.raised e
      else tryClickLoop rest

/-- The `check_click` re-verification loop: over the re-queried elements,
`if webelt.is_displayed(): raise ErrorUtilsSelenium("Popup could not be
closed.")`. -/
def recheckLoop : List Elem → Option Exc
  | [] => none
  | el :: rest =>
      if el.displayed then some (Exc.errorUtilsSelenium "Popup could not be closed.")
      else recheckLoop rest

/-- The `# close popup` section of `closepopup_queueprocessing`, after
`webelts` has been determined: when `len(webelts) > 0`, run the click loop;
when an element was clicked this run and `check_click` is set, re-query and
raise if a match is still displayed; when `len(webelts) == 0`, log
`not found` and keep `closedpopup` unchanged. -/
def clickPhase (env : EntryEnv) (closedpopup : Bool) (q : QueueEntry)
    (webelts : List Elem) : List ProcEvent × Except Exc Bool :=
  if webelts.length > 0 then
    match tryClickLoop webelts with
    | TryClickRes.raised e => ([], Except.error e)
    | TryClickRes.clicked =>
        if q.check_click then
          match recheckLoop env.recheck with
          | some e => ([ProcEvent.logFoundTarget q], Except.error e)
          | none => ([ProcEvent.logFoundTarget q], Except.ok true)
        else ([ProcEvent.logFoundTarget q], Except.ok true)
    | TryClickRes.noneClicked => ([], Except.ok closedpopup)
  else ([ProcEvent.logNotFound q], Except.ok closedpopup)

/-- The `# find close popup (considering also shadow DOM webelements)` section:
with a shadow-host locator, `len(shadowhosts) == 0` logs and `continue`s,
`len(shadowhosts) == 1` queries the shadow root for `locator_click`, more than
one host logs and `continue`s; without a shadow-host locator, `webelts` is
queried directly. -/
def shadowPhase (env : EntryEnv) (closedpopup : Bool) (q : QueueEntry) :
    List ProcEvent × Except Exc Bool :=
  match q.locator_shadowdomhost with
  | some _ =>
      if env.shadowhosts = 0 then
        ([ProcEvent.logShadowHostNotFound q], Except.ok closedpopup)
      else if env.shadowhosts = 1 then
        clickPhase env closedpopup q env.webelts
      else
        ([ProcEvent.logShadowHostNotUnique q], Except.ok closedpopup)
  | none => clickPhase env closedpopup q env.webelts

/-- The `# go to frame of popup (if any)` section: with an iframe locator,
`len(frames) == 0` logs `FRAME not found` and `continue`s, `len(frames) == 1`
switches into the frame and proceeds, `len(frames) > 1` logs `FRAME not
unique` and `continue`s; without an iframe locator the entry proceeds
directly. -/
def framePhase (env : EntryEnv) (closedpopup : Bool) (q : QueueEntry) :
    List ProcEvent × Except Exc Bool :=
  match q.locator_iframe with
  | some _ =>
      if env.frames = 0 then
        ([ProcEvent.logFrameNotFound q], Except.ok closedpopup)
      else if env.frames = 1 then
        shadowPhase env closedpopup q
      else
        ([ProcEvent.logFrameNotUnique q], Except.ok closedpopup)
  | none => shadowPhase env closedpopup q

/-- The body of the `while` loop of `closepopup_queueprocessing` for one
dequeued entry: `if not firstonly or not closedpopup:` process the entry,
otherwise log `not checked` and drop it.  Returns the events of this entry
and either the updated `closedpopup` flag or a raised exception. -/
def processEntry (env : EntryEnv) (firstonly closedpopup : Bool)
    (q : QueueEntry) : List ProcEvent × Except Exc Bool :=
  if !firstonly || !closedpopup then framePhase env closedpopup q
  else ([ProcEvent.logNotChecked q], Except.ok closedpopup)

/-- The `while len(webdriver.closepopup_queue) > 0:` loop: pop the leftmost
entry, process it, continue with the rest; a raised exception aborts the loop
leaving the unprocessed remainder in the queue.  `env i` supplies the external
answers for the `i`-th processed entry.  Returns the event trace, the entries
still in the queue, and the final `closedpopup` flag or the exception. -/
def closepopup_drain (env : Nat → EntryEnv) (firstonly : Bool) :
    Nat → List QueueEntry → Bool →
    List ProcEvent × List QueueEntry × Except Exc Bool
  | _, [], closedpopup => ([], [], Except.ok closedpopup)
  | i, q :: rest, closedpopup =>
      let step := processEntry (env i) firstonly closedpopup q
      match step.2 with
      | Except.error e => (ProcEvent.dequeued q :: step.1, rest, Except.error e)
      | Except.ok closedpopup2 =>
          let tail := closepopup_drain env firstonly (i + 1) rest closedpopup2
          (ProcEvent.dequeued q :: step.1 ++ tail.1, tail.2.1, tail.2.2)

/-- The driver state relevant to the popup queue: the `closepopup_queue`
attribute.  The `hasattr` check of the source corresponds to starting from the
empty list. -/
structure DriverState where
  closepopup_queue : List QueueEntry
  deriving DecidableEq, Repr

/-- `closepopup_queueadd` of `webdriver_addon.py`: build the entry dict from
the arguments and `append` it to `webdriver.closepopup_queue` (creating the
queue when absent — the state always carries the list, initially empty). -/
def closepopup_queueadd (st : DriverState) (locator_click : SeleniumLocator)
    (wait_click : Nat) (check_click : Bool)
    (locator_iframe : Option SeleniumLocator) (wait_iframe : Nat)
    (locator_shadowdomhost : Option SeleniumLocator) : DriverState :=
  { closepopup_queue := st.closepopup_queue ++
      [{ locator_click := locator_click, wait_click := wait_click,
         check_click := check_click, locator_iframe := locator_iframe,
         wait_iframe := wait_iframe,
         locator_shadowdomhost := locator_shadowdomhost }] }

/-- `closepopup_queueprocessing` of `webdriver_addon.py`: initialise
`closedpopup = False`, drain the queue, return the flag (the events and the
post-state are returned alongside). -/
def closepopup_queueprocessing (env : Nat → EntryEnv) (st : DriverState)
    (firstonly : Bool) : List ProcEvent × DriverState × Except Exc Bool :=
  let run := closepopup_drain env firstonly 0 st.closepopup_queue false
  (run.1, { closepopup_queue := run.2.1 }, run.2.2)

/-- Entries dequeued during a run, in trace order. -/
def dequeuedOf : List ProcEvent → List QueueEntry
  | [] => []
  | ProcEvent.dequeued q :: rest => q :: dequeuedOf rest
  | _ :: rest => dequeuedOf rest

/-! ## Concrete sample inputs -/

/-- A CSS locator for a close button. -/
def locClose : SeleniumLocator := { by_ := By.css_selector, value := "button.close" }

/-- A CSS locator for an advertising iframe. -/
def locFrame : SeleniumLocator := { by_ := By.css_selector, value := "iframe.ad" }

/-- Plain request: no iframe, no shadow host, no check. -/
def entryPlainA : QueueEntry :=
  { locator_click := locClose, wait_click := 0, check_click := false,
    locator_iframe := none, wait_iframe := 1, locator_shadowdomhost := none }

/-- A second plain request with an XPath click locator. -/
def entryPlainB : QueueEntry :=
  { locator_click := { by_ := By.xpath, value := "//div[1]" }, wait_click := 0,
    check_click := false, locator_iframe := none, wait_iframe := 1,
    locator_shadowdomhost := none }

/-- Request whose click target sits inside an iframe. -/
def entryIframe : QueueEntry :=
  { locator_click := locClose, wait_click := 0, check_click := false,
    locator_iframe := some locFrame, wait_iframe := 1,
    locator_shadowdomhost := none }

/-- Request with the `check_click` re-verification flag set. -/
def entryCheck : QueueEntry :=
  { locator_click := locClose, wait_click := 0, check_click := true,
    locator_iframe := none, wait_iframe := 1, locator_shadowdomhost := none }

/-- World in which no locator matches anything. -/
def envNoMatch : Nat → EntryEnv :=
  fun _ => { frames := 0, shadowhosts := 0, webelts := [], recheck := [] }

/-- World in which the iframe locator resolves to zero frames. -/
def envFrame0 : EntryEnv :=
  { frames := 0, shadowhosts := 0, webelts := [], recheck := [] }

/-- World in which the click succeeds but the popup is still displayed at the
`check_click` re-query. -/
def envStillThere : EntryEnv :=
  { frames := 0, shadowhosts := 0,
    webelts := [{ displayed := true, click := ClickOutcome.success }],
    recheck := [{ displayed := true, click := ClickOutcome.success }] }

/-- World in which clicking the displayed target raises a non-stale
exception. -/
def envFail : EntryEnv :=
  { frames := 0, shadowhosts := 0,
    webelts := [{ displayed := true, click := ClickOutcome.failure (Exc.webdriverError 7) }],
    recheck := [] }

/-- World in which clicking the displayed target raises
`StaleElementReferenceException`. -/
def envStale : Nat → EntryEnv :=
  fun _ => { frames := 0, shadowhosts := 0,
             webelts := [{ displayed := true, click := ClickOutcome.stale }],
             recheck := [] }

/-- Queue holding the two plain requests, in order. -/
def stAB : DriverState := { closepopup_queue := [entryPlainA, entryPlainB] }

/-- Queue holding one plain request (used with `envStale`). -/
def stStale : DriverState := { closepopup_queue := [entryPlainA] }

/-! ## Lemmas about the event-firing wrapper -/

theorem _wrap_elements_listcomp_eq_map (items : List PyVal) (d : Nat) :
    _wrap_elements_listcomp items d =
      items.map (fun item => _wrap_elements item d) := by
  induction items with
  | nil => rfl
  | cons a rest ih => simp [_wrap_elements_listcomp, ih]

mutual

theorem wrap_elements_idem_aux :
    ∀ (x : PyVal) (d : Nat),
      _wrap_elements (_wrap_elements x d) d = _wrap_elements x d
  | PyVal.efWebElementExtended _ _, _ => rfl
  | PyVal.efSwitchTo _ _, _ => rfl
  | PyVal.efAlert _ _, _ => rfl
  | PyVal.webElement _, _ => rfl
  | PyVal.switchTo _, _ => rfl
  | PyVal.alert _, _ => rfl
  | PyVal.builtin _, _ => rfl
  | PyVal.list xs, d => by
      simp only [_wrap_elements]
      exact congrArg PyVal.list (wrap_elements_listcomp_idem_aux xs d)

theorem wrap_elements_listcomp_idem_aux :
    ∀ (xs : List PyVal) (d : Nat),
      _wrap_elements_listcomp (_wrap_elements_listcomp xs d) d =
        _wrap_elements_listcomp xs d
  | [], _ => rfl
  | x :: rest, d => by
      simp only [_wrap_elements_listcomp]
      rw [wrap_elements_idem_aux x d, wrap_elements_listcomp_idem_aux rest d]

end

/-! ## Claims about the event-firing wrapper -/

/-- C2: for every intercepted method dispatched with a registered listener
hook, `_dispatch` (and likewise `_getattr_dispatch_generic`) invokes the
listener's before-hook first, then the real underlying method, then the
listener's after-hook, in that order, each exactly once; with no registered
hook, `_getattr_dispatch_generic` fires the generic before record, the call,
and the generic after record in that order. -/
theorem C2_hook_order (efd : Nat) (s d : String) (r : PyVal) (h : s ≠ "") :
    _dispatch efd (some s) d (Except.ok r) =
      ([Event.beforeHook s, Event.callUnderlying d, Event.afterHook s],
       Except.ok (_wrap_elements r efd))
    ∧ _getattr_dispatch_generic efd (some s) d (Except.ok r) =
      ([Event.beforeHook s, Event.callUnderlying d, Event.afterHook s],
       Except.ok (_wrap_elements r efd))
    ∧ _getattr_dispatch_generic efd none d (Except.ok r) =
      ([Event.genericHook HookPhase.before d, Event.callUnderlying d,
        Event.genericHook HookPhase.after d],
       Except.ok (_wrap_elements r efd)) := by
  refine ⟨?_, ?_, ?_⟩ <;>
    simp [_dispatch, _getattr_dispatch_generic, pyTruthy, lcallGiven, h]

theorem C2_hook_order_witness :
    "load" ≠ "" ∧
    _dispatch 0 (some "load") "get" (Except.ok (PyVal.builtin 5)) =
      ([Event.beforeHook "load", Event.callUnderlying "get",
        Event.afterHook "load"],
       Except.ok (PyVal.builtin 5)) :=
  ⟨by decide, (C2_hook_order 0 "load" "get" (PyVal.builtin 5) (by decide)).1⟩

/-- C3: when the underlying real method raises, every dispatcher of
`eventfiring_addon.py` (`_dispatch`, the `_wrap` closure of `_getattr`, and
`_getattr_dispatch_generic`) notifies the listener's `on_exception` hook
exactly once, propagates the identical exception to the caller, and invokes
no after-hook (neither a registered nor a generic one). -/
theorem C3_exception_propagation (efd : Nat) (l : Option String) (d : String)
    (e : Exc) :
    ((_dispatch efd l d (Except.error e)).2 = Except.error e
      ∧ countOnException (_dispatch efd l d (Except.error e)).1 = 1
      ∧ hasAfterHook (_dispatch efd l d (Except.error e)).1 = false
      ∧ hasGenericAfterHook (_dispatch efd l d (Except.error e)).1 = false)
    ∧ ((_getattr_wrap efd d (Except.error e)).2 = Except.error e
      ∧ countOnException (_getattr_wrap efd d (Except.error e)).1 = 1
      ∧ hasAfterHook (_getattr_wrap efd d (Except.error e)).1 = false
      ∧ hasGenericAfterHook (_getattr_wrap efd d (Except.error e)).1 = false)
    ∧ ((_getattr_dispatch_generic efd l d (Except.error e)).2 = Except.error e
      ∧ countOnException (_getattr_dispatch_generic efd l d (Except.error e)).1 = 1
      ∧ hasAfterHook (_getattr_dispatch_generic efd l d (Except.error e)).1 = false
      ∧ hasGenericAfterHook
          (_getattr_dispatch_generic efd l d (Except.error e)).1 = false) := by
  rcases l with _ | s
  · refine ⟨⟨rfl, rfl, rfl, rfl⟩, ⟨rfl, rfl, rfl, rfl⟩, rfl, rfl, rfl, rfl⟩
  · by_cases hs : s = "" <;>
      simp [_dispatch, _getattr_wrap, _getattr_dispatch_generic, pyTruthy,
        lcallGiven, hs, countOnException, hasAfterHook, hasGenericAfterHook]

/-- C7: the result of an intercepted call is wrapped in the corresponding
event-firing class — a web element into `EventFiringWebElementExtended`, a
switch-to object into `EventFiringSwitchTo`, an alert into `EventFiringAlert`,
a list element-wise — while a value of a built-in type is returned as-is, and
both `_dispatch` and the `_getattr` closure return exactly the
`_wrap_elements` image of the underlying result. -/
theorem C7_result_wrapping (efd i j k v : Nat) (xs : List PyVal)
    (l : Option String) (d : String) (r : PyVal) :
    _wrap_elements (PyVal.webElement i) efd =
      PyVal.efWebElementExtended (PyVal.webElement i) efd
    ∧ _wrap_elements (PyVal.switchTo j) efd =
      PyVal.efSwitchTo (PyVal.switchTo j) efd
    ∧ _wrap_elements (PyVal.alert k) efd =
      PyVal.efAlert (PyVal.alert k) efd
    ∧ _wrap_elements (PyVal.list xs) efd =
      PyVal.list (xs.map (fun x => _wrap_elements x efd))
    ∧ _wrap_elements (PyVal.builtin v) efd = PyVal.builtin v
    ∧ (_dispatch efd l d (Except.ok r)).2 = Except.ok (_wrap_elements r efd)
    ∧ (_getattr_wrap efd d (Except.ok r)).2 =
      Except.ok (_wrap_elements r efd) := by
  refine ⟨rfl, rfl, rfl, ?_, rfl, rfl, rfl⟩
  simp [_wrap_elements, _wrap_elements_listcomp_eq_map]

/-- C10: `_wrap_elements` is idempotent — applied to an already wrapped value
it returns it unchanged, so double application equals single application for
every input. -/
theorem C10_wrap_elements_idempotent (x : PyVal) (d : Nat) :
    _wrap_elements (_wrap_elements x d) d = _wrap_elements x d :=
  wrap_elements_idem_aux x d

/-! ## Lemmas about the popup-closing queue -/

theorem dequeuedOf_clickPhase (env : EntryEnv) (closed : Bool) (q : QueueEntry)
    (w : List Elem) : dequeuedOf (clickPhase env closed q w).1 = [] := by
  simp only [clickPhase]
  split
  · split
    · rfl
    · split
      · split <;> rfl
      · rfl
    · rfl
  · rfl

theorem dequeuedOf_shadowPhase (env : EntryEnv) (closed : Bool)
    (q : QueueEntry) : dequeuedOf (shadowPhase env closed q).1 = [] := by
  simp only [shadowPhase]
  split
  · split
    · rfl
    · split
      · exact dequeuedOf_clickPhase env closed q env.webelts
      · rfl
  · exact dequeuedOf_clickPhase env closed q env.webelts

theorem dequeuedOf_framePhase (env : EntryEnv) (closed : Bool)
    (q : QueueEntry) : dequeuedOf (framePhase env closed q).1 = [] := by
  simp only [framePhase]
  split
  · split
    · rfl
    · split
      · exact dequeuedOf_shadowPhase env closed q
      · rfl
  · exact dequeuedOf_shadowPhase env closed q

theorem dequeuedOf_processEntry (env : EntryEnv) (fo closed : Bool)
    (q : QueueEntry) : dequeuedOf (processEntry env fo closed q).1 = [] := by
  simp only [processEntry]
  split
  · exact dequeuedOf_framePhase env closed q
  · rfl

theorem dequeuedOf_append (a b : List ProcEvent) :
    dequeuedOf (a ++ b) = dequeuedOf a ++ dequeuedOf b := by
  induction a with
  | nil => rfl
  | cons x rest ih => cases x <;> simp [dequeuedOf, ih]

theorem closepopup_drain_cons_ok (env : Nat → EntryEnv) (fo : Bool) (i : Nat)
    (q : QueueEntry) (rest : List QueueEntry) (closed closed2 : Bool)
    (h : (processEntry (env i) fo closed q).2 = Except.ok closed2) :
    closepopup_drain env fo i (q :: rest) closed =
      (ProcEvent.dequeued q :: (processEntry (env i) fo closed q).1 ++
         (closepopup_drain env fo (i + 1) rest closed2).1,
       (closepopup_drain env fo (i + 1) rest closed2).2.1,
       (closepopup_drain env fo (i + 1) rest closed2).2.2) := by
  simp only [closepopup_drain, h]

theorem closepopup_drain_cons_error (env : Nat → EntryEnv) (fo : Bool)
    (i : Nat) (q : QueueEntry) (rest : List QueueEntry) (closed : Bool)
    (e : Exc) (h : (processEntry (env i) fo closed q).2 = Except.error e) :
    closepopup_drain env fo i (q :: rest) closed =
      (ProcEvent.dequeued q :: (processEntry (env i) fo closed q).1, rest,
       Except.error e) := by
  simp only [closepopup_drain, h]

theorem closepopup_drain_dequeued (env : Nat → EntryEnv) (fo : Bool) :
    ∀ (qs : List QueueEntry) (i : Nat) (closed : Bool),
      dequeuedOf (closepopup_drain env fo i qs closed).1 ++
        (closepopup_drain env fo i qs closed).2.1 = qs := by
  intro qs
  induction qs with
  | nil => intro i closed; rfl
  | cons q rest ih =>
      intro i closed
      rcases hstep : (processEntry (env i) fo closed q).2 with e | closed2
      · rw [closepopup_drain_cons_error env fo i q rest closed e hstep]
        simp [dequeuedOf, dequeuedOf_processEntry]
      · rw [closepopup_drain_cons_ok env fo i q rest closed closed2 hstep]
        simp [dequeuedOf, dequeuedOf_append, dequeuedOf_processEntry,
          ih (i + 1) closed2]

theorem closepopup_drain_ok_rem (env : Nat → EntryEnv) (fo : Bool) :
    ∀ (qs : List QueueEntry) (i : Nat) (closed b : Bool),
      (closepopup_drain env fo i qs closed).2.2 = Except.ok b →
      (closepopup_drain env fo i qs closed).2.1 = [] := by
  intro qs
  induction qs with
  | nil => intro i closed b _; rfl
  | cons q rest ih =>
      intro i closed b hok
      rcases hstep : (processEntry (env i) fo closed q).2 with e | closed2
      · rw [closepopup_drain_cons_error env fo i q rest closed e hstep] at hok ⊢
        simp at hok
      · rw [closepopup_drain_cons_ok env fo i q rest closed closed2 hstep] at hok ⊢
        exact ih (i + 1) closed2 b hok

theorem recheckLoop_of_any_displayed :
    ∀ (l : List Elem), l.any (fun el => el.displayed) = true →
      recheckLoop l = some (Exc.errorUtilsSelenium "Popup could not be closed.") := by
  intro l
  induction l with
  | nil => intro h; simp at h
  | cons el rest ih =>
      intro h
      by_cases hd : el.displayed = true
      · simp [recheckLoop, hd]
      · simp only [Bool.not_eq_true] at hd
        simp only [List.any_cons, hd, Bool.false_or] at h
        simp [recheckLoop, hd, ih h]

theorem tryClickLoop_nil : tryClickLoop [] = TryClickRes.noneClicked := rfl

theorem processEntry_branch_taken (env : EntryEnv) (fo closed : Bool)
    (q : QueueEntry) (h : (fo && closed) = false) :
    processEntry env fo closed q = framePhase env closed q := by
  have hb : (!fo || !closed) = true := by
    cases fo <;> cases closed <;> simp_all
  simp [processEntry, hb]

theorem framePhase_through (env : EntryEnv) (closed : Bool) (q : QueueEntry)
    (h : q.locator_iframe = none ∨ env.frames = 1) :
    framePhase env closed q = shadowPhase env closed q := by
  rcases h with h | h
  · simp [framePhase, h]
  · simp only [framePhase, h]
    rcases hq : q.locator_iframe with _ | l <;> simp

theorem shadowPhase_through (env : EntryEnv) (closed : Bool) (q : QueueEntry)
    (h : q.locator_shadowdomhost = none ∨ env.shadowhosts = 1) :
    shadowPhase env closed q = clickPhase env closed q env.webelts := by
  rcases h with h | h
  · simp [shadowPhase, h]
  · simp only [shadowPhase, h]
    rcases hq : q.locator_shadowdomhost with _ | l <;> simp

/-! ## Claims about the popup-closing queue -/

/-- C1: `closepopup_queueadd` appends each request at the tail of the queue,
and `closepopup_queueprocessing` dequeues the enqueued requests front to back:
the dequeue trace followed by whatever remains in the queue is exactly the
enqueued sequence, and on a normal (exception-free) return the dequeue trace
is the whole enqueued sequence in order. -/
theorem C1_fifo_processing (env : Nat → EntryEnv) (fo : Bool)
    (st : DriverState) (lc : SeleniumLocator) (wc : Nat) (cc : Bool)
    (li : Option SeleniumLocator) (wi : Nat)
    (lsh : Option SeleniumLocator) :
    (closepopup_queueadd st lc wc cc li wi lsh).closepopup_queue =
      st.closepopup_queue ++
        [{ locator_click := lc, wait_click := wc, check_click := cc,
           locator_iframe := li, wait_iframe := wi,
           locator_shadowdomhost := lsh }]
    ∧ dequeuedOf (closepopup_queueprocessing env st fo).1 ++
        (closepopup_queueprocessing env st fo).2.1.closepopup_queue =
      st.closepopup_queue
    ∧ (∀ b, (closepopup_queueprocessing env st fo).2.2 = Except.ok b →
        dequeuedOf (closepopup_queueprocessing env st fo).1 =
          st.closepopup_queue) := by
  refine ⟨rfl, ?_, ?_⟩
  · exact closepopup_drain_dequeued env fo st.closepopup_queue 0 false
  · intro b hb
    have h1 := closepopup_drain_dequeued env fo st.closepopup_queue 0 false
    have h2 := closepopup_drain_ok_rem env fo st.closepopup_queue 0 false b hb
    rw [h2, List.append_nil] at h1
    exact h1

/-- C1 witness: processing the two-entry queue `stAB` in a world where nothing
matches returns normally and dequeues exactly the two enqueued entries in
order. -/
theorem C1_fifo_processing_witness :
    (closepopup_queueprocessing envNoMatch stAB true).2.2 = Except.ok false
    ∧ dequeuedOf (closepopup_queueprocessing envNoMatch stAB true).1 =
        stAB.closepopup_queue :=
  ⟨rfl,
   (C1_fifo_processing envNoMatch true stAB locClose 0 false none 1
      none).2.2 false rfl⟩

/-- C6: on a normal return of `closepopup_queueprocessing` (either value of
`firstonly`) the queue is empty, and an immediately repeated call — with any
world and any `firstonly` — produces no events at all (hence no click
attempts) and returns `False`. -/
theorem C6_queue_emptied (env env2 : Nat → EntryEnv) (st : DriverState)
    (fo fo2 b : Bool)
    (h : (closepopup_queueprocessing env st fo).2.2 = Except.ok b) :
    (closepopup_queueprocessing env st fo).2.1.closepopup_queue = []
    ∧ closepopup_queueprocessing env2
        (closepopup_queueprocessing env st fo).2.1 fo2 =
      ([], { closepopup_queue := [] }, Except.ok false) := by
  have hrem := closepopup_drain_ok_rem env fo st.closepopup_queue 0 false b h
  refine ⟨hrem, ?_⟩
  have hst : (closepopup_queueprocessing env st fo).2.1 =
      { closepopup_queue := [] } := congrArg DriverState.mk hrem
  rw [hst]
  rfl

/-- C6 witness: after processing `stAB` in the no-match world, the queue is
empty and a repeat call returns `False` with an empty trace. -/
theorem C6_queue_emptied_witness :
    (closepopup_queueprocessing envNoMatch stAB true).2.1.closepopup_queue = []
    ∧ closepopup_queueprocessing envNoMatch
        (closepopup_queueprocessing envNoMatch stAB true).2.1 false =
      ([], { closepopup_queue := [] }, Except.ok false) :=
  C6_queue_emptied envNoMatch envNoMatch stAB true false false rfl

/-- C4: during `closepopup_queueprocessing`, an entry whose iframe locator
resolves to zero frames or to more than one frame yields only the
corresponding log record and leaves the `closedpopup` flag unchanged — no
exception; the same skip policy applies when the shadow-DOM host locator
resolves to zero or to more than one host; and after such a normally
completing entry the drain continues with the next queue entry. -/
theorem C4_resolution_skip (env : EntryEnv) (envs : Nat → EntryEnv)
    (fo closed closed2 : Bool) (q : QueueEntry) (li ls : SeleniumLocator)
    (i : Nat) (rest : List QueueEntry) :
    ((fo && closed) = false → q.locator_iframe = some li → env.frames ≠ 1 →
      (processEntry env fo closed q).2 = Except.ok closed
      ∧ (processEntry env fo closed q).1 =
          [if env.frames = 0 then ProcEvent.logFrameNotFound q
           else ProcEvent.logFrameNotUnique q])
    ∧ ((fo && closed) = false → (q.locator_iframe = none ∨ env.frames = 1) →
        q.locator_shadowdomhost = some ls → env.shadowhosts ≠ 1 →
      (processEntry env fo closed q).2 = Except.ok closed
      ∧ (processEntry env fo closed q).1 =
          [if env.shadowhosts = 0 then ProcEvent.logShadowHostNotFound q
           else ProcEvent.logShadowHostNotUnique q])
    ∧ ((processEntry (envs i) fo closed q).2 = Except.ok closed2 →
        (closepopup_drain envs fo i (q :: rest) closed).2.2 =
          (closepopup_drain envs fo (i + 1) rest closed2).2.2) := by
  refine ⟨?_, ?_, ?_⟩
  · intro hb hif hf
    rw [processEntry_branch_taken env fo closed q hb]
    simp only [framePhase, hif]
    by_cases h0 : env.frames = 0
    · simp [h0]
    · simp [h0, hf]
  · intro hb hif hsh hs
    rw [processEntry_branch_taken env fo closed q hb,
        framePhase_through env closed q hif]
    simp only [shadowPhase, hsh]
    by_cases h0 : env.shadowhosts = 0
    · simp [h0]
    · simp [h0, hs]
  · intro hok
    rw [closepopup_drain_cons_ok envs fo i q rest closed closed2 hok]

/-- C4 witness: the iframe entry in the zero-frame world is skipped with the
`FRAME not found` log record and no exception. -/
theorem C4_resolution_skip_witness :
    (processEntry envFrame0 true false entryIframe).2 = Except.ok false
    ∧ (processEntry envFrame0 true false entryIframe).1 =
        [if envFrame0.frames = 0 then ProcEvent.logFrameNotFound entryIframe
         else ProcEvent.logFrameNotUnique entryIframe] :=
  (C4_resolution_skip envFrame0 envNoMatch true false false entryIframe
     locFrame locFrame 0 []).1 (by decide) rfl (by decide)

/-- C5: when a queue entry with `check_click` set has had its target clicked
and an element matching the click locator is still displayed at the re-query,
`closepopup_queueprocessing` raises
`ErrorUtilsSelenium("Popup could not be closed.")`, and a raised exception
aborts the drain — it is the result of the whole processing call. -/
theorem C5_check_click_fatal (env : EntryEnv) (envs : Nat → EntryEnv)
    (fo closed : Bool) (q : QueueEntry) (i : Nat) (rest : List QueueEntry)
    (e : Exc) (hb : (fo && closed) = false)
    (hframe : q.locator_iframe = none ∨ env.frames = 1)
    (hshadow : q.locator_shadowdomhost = none ∨ env.shadowhosts = 1)
    (hcheck : q.check_click = true)
    (hclick : tryClickLoop env.webelts = TryClickRes.clicked)
    (hstill : env.recheck.any (fun el => el.displayed) = true) :
    (processEntry env fo closed q).2 =
      Except.error (Exc.errorUtilsSelenium "Popup could not be closed.")
    ∧ ((processEntry (envs i) fo closed q).2 = Except.error e →
        (closepopup_drain envs fo i (q :: rest) closed).2.2 =
          Except.error e) := by
  constructor
  · rw [processEntry_branch_taken env fo closed q hb,
        framePhase_through env closed q hframe,
        shadowPhase_through env closed q hshadow]
    have hne : env.webelts ≠ [] := by
      intro hnil
      rw [hnil] at hclick
      exact TryClickRes.noConfusion hclick
    have hlen : 0 < env.webelts.length := List.length_pos.mpr hne
    simp [clickPhase, hlen, hclick, hcheck,
      recheckLoop_of_any_displayed env.recheck hstill]
  · intro herr
    rw [closepopup_drain_cons_error envs fo i q rest closed e herr]

/-- C5 witness: the `check_click` entry in the world where the popup is still
displayed after the click makes `processEntry` raise
`Popup could not be closed.`. -/
theorem C5_check_click_fatal_witness :
    (processEntry envStillThere true false entryCheck).2 =
      Except.error (Exc.errorUtilsSelenium "Popup could not be closed.") :=
  (C5_check_click_fatal envStillThere envNoMatch true false entryCheck 0 []
     (Exc.webdriverError 0) (by decide) (Or.inl rfl) (Or.inl rfl) rfl rfl
     rfl).1

/-- C9 counterexample: clicking the single displayed target raises
`StaleElementReferenceException` (the `ClickOutcome.stale` of `envStale`), yet
`closepopup_queueprocessing` returns normally with `False` — the exception is
swallowed rather than surfaced to the caller, refuting the claim that every
exception raised while clicking propagates. -/
theorem C9_counterexample :
    (envStale 0).webelts = [{ displayed := true, click := ClickOutcome.stale }]
    ∧ (closepopup_queueprocessing envStale stStale true).2.2 = Except.ok false
    ∧ (closepopup_queueprocessing envStale stStale
        true).2.1.closepopup_queue = [] :=
  ⟨rfl, rfl, rfl⟩

/-- C9 (amended): every exception other than `StaleElementReferenceException`
raised while attempting to click a resolved target is surfaced to the caller
unchanged and aborts the drain; a `StaleElementReferenceException` is swallowed
and the element loop continues with the next matching element. -/
theorem C9_exception_surfacing (env : EntryEnv) (envs : Nat → EntryEnv)
    (fo closed : Bool) (q : QueueEntry) (i : Nat) (rest : List QueueEntry)
    (e : Exc) (tail : List Elem) (hb : (fo && closed) = false)
    (hframe : q.locator_iframe = none ∨ env.frames = 1)
    (hshadow : q.locator_shadowdomhost = none ∨ env.shadowhosts = 1)
    (hraise : tryClickLoop env.webelts = TryClickRes.raised e) :
    (processEntry env fo closed q).2 = Except.error e
    ∧ ((processEntry (envs i) fo closed q).2 = Except.error e →
        (closepopup_drain envs fo i (q :: rest) closed).2.2 =
          Except.error e)
    ∧ tryClickLoop ({ displayed := true, click := ClickOutcome.stale } :: tail) =
        tryClickLoop tail := by
  refine ⟨?_, ?_, ?_⟩
  · rw [processEntry_branch_taken env fo closed q hb,
        framePhase_through env closed q hframe,
        shadowPhase_through env closed q hshadow]
    have hne : env.webelts ≠ [] := by
      intro hnil
      rw [hnil] at hraise
      exact TryClickRes.noConfusion hraise
    have hlen : 0 < env.webelts.length := List.length_pos.mpr hne
    simp [clickPhase, hlen, hraise]
  · intro herr
    rw [closepopup_drain_cons_error envs fo i q rest closed e herr]
  · simp [tryClickLoop]

/-- C9 witness: a non-stale exception from the click is the result of the
entry's processing, unchanged. -/
theorem C9_exception_surfacing_witness :
    (processEntry envFail true false entryPlainA).2 =
      Except.error (Exc.webdriverError 7) :=
  (C9_exception_surfacing envFail envNoMatch true false entryPlainA 0 []
     (Exc.webdriverError 7) [] (by decide) (Or.inl rfl) (Or.inl rfl) rfl).1

/-! ## Claims about the shadow-DOM single-element lookup -/

/-- C8 counterexample: when the locator matches no element — the underlying
`find_elements_shadowdom` answers `None` or the empty list —
`find_element_shadowdom` returns `None` instead of raising, refuting the claim
that a zero-match failure is surfaced as an exception. -/
theorem C8_counterexample :
    find_element_shadowdom (none : Option (List Nat)) = Except.ok none
    ∧ find_element_shadowdom (some ([] : List Nat)) = Except.ok none :=
  ⟨rfl, rfl⟩

/-- C8 (amended): `find_element_shadowdom` raises
`ErrorUtilsSelenium("Multiple elements for descriptor in shadow DOM")` when
the locator matches more than one element, returns the element when exactly
one matches, and returns `None` (without raising) when no element matches. -/
theorem C8_find_element_shadowdom (w w2 : Nat) (ws : List Nat) :
    find_element_shadowdom (some [w]) = Except.ok (some w)
    ∧ find_element_shadowdom (some (w :: w2 :: ws)) =
        Except.error
          (Exc.errorUtilsSelenium "Multiple elements for descriptor in shadow DOM")
    ∧ find_element_shadowdom (some ([] : List Nat)) = Except.ok none
    ∧ find_element_shadowdom (none : Option (List Nat)) = Except.ok none := by
  refine ⟨rfl, ?_, rfl, rfl⟩
  simp [find_element_shadowdom]

end UtilsSeleniumXP
